import Mathlib

/-!
Shallow embedding of `src/EvolutionaryLLMs.py`: a `Population` of opaque genes
evolved by pluggable evaluate / mutate / breed strategies, with elitist
truncation selection (`kill_the_weak`) and a probabilistic mutate-or-breed
refill loop (`run_generations`).

Modelling conventions:
* Fitness values (`Evaluation` objects, and the float sentinel -1e99 stored in
  `best_fitness`) are modelled as rationals; the code uses only their order.
* Genes are a type parameter `G`; the strategy objects stored on `self` are
  passed to each method explicitly as functions.  A stateful or randomized
  mutator is modelled by indexing its calls (`mutateCall : Nat → G → G`), so
  distinct calls are independent of one another.
* Fallible Python code returns `Except (PyErr E)`, where `E` is the type of
  errors a user-supplied strategy may itself raise.
* `tqdm` and `print` perform I/O only and are not modelled.
* The ambient randomness of the refill loop is modelled by an explicit oracle
  (`RandDraw`): one uniform rational `r`, one choice index and one sample index
  pair per iteration; quantifying over the oracle covers every outcome the
  random source can produce.
-/

-- `Except` equality is decidable componentwise; the core library does not
-- derive it, so it is derived here for use in concrete evaluations.
deriving instance DecidableEq for Except

/-- Errors a Python run can surface: the built-in `TypeError`,
`AttributeError`, `ValueError`, `IndexError`, `AssertionError`, or an error
raised by a user-supplied strategy (`strategy e`). -/
inductive PyErr (E : Type) where
  | typeError
  | attributeError
  | valueError
  | indexError
  | assertionError
  | strategy (e : E)
deriving DecidableEq

/-- The attributes `Population.__init__` assigns (source lines 47-61), minus
the strategy objects themselves, which are passed to each method explicitly
here.  `num_organisms` and `top_k` are Python ints, hence `Int`; note the
survivor count is stored under the name `topk` (source line 53). -/
structure PopState (G : Type) where
  num_organisms : Int
  selection_criteria : String
  topk : Int
  organisms : List G
  best_gene : Option G
  best_fitness : ℚ
  mutate_probability : ℚ
deriving DecidableEq

/-- The float literal -1e99 used as the initial `best_fitness` sentinel
(source line 59), modelled as the exact rational -10^99 (only its order
relative to attainable scores matters). -/
def neg1e99 : ℚ :=
  -1000000000000000000000000000000000000000000000000000000000000000000000000000000000000000000000000000

/-- Python 3 `list.sort` accepts keyword-only arguments, so the call
`genes.sort(lambda x: x[1])` (source line 103), which passes the key function
positionally, raises `TypeError` without sorting anything. -/
def listSortPositional {α β : Type} (E : Type) (xs : List α) (key : α → β) :
    Except (PyErr E) (List α) :=
  .error .typeError

/-- The attribute access `self.top_k` (source line 104): `__init__` stores the
survivor count under `topk` (source line 53) and never assigns `top_k`, so
this access raises `AttributeError`. -/
def getattrTop_k {G : Type} (E : Type) (st : PopState G) : Except (PyErr E) Int :=
  .error .attributeError

/-- Python slice `xs[:k]` for an int `k`; a negative `k` counts from the end. -/
def pySliceTo {α : Type} (xs : List α) (k : Int) : List α :=
  if k < 0 then xs.take ((xs.length : Int) + k).toNat else xs.take k.toNat

/-- `Population.kill_the_weak` (source lines 102-104): sort the
(gene, fitness) pairs in place, then return the first `self.top_k` of them.
Both lines are broken: the sort call raises `TypeError` (see
`listSortPositional`), and the slice would read the nonexistent attribute
`top_k` (see `getattrTop_k`).  Consequently every call raises `TypeError`. -/
def kill_the_weak {G : Type} (E : Type) (st : PopState G)
    (genes : List (G × ℚ)) : Except (PyErr E) (List (G × ℚ)) :=
  match listSortPositional E genes (fun x => x.2) with
  | .error e => .error e
  | .ok sorted =>
    match getattrTop_k E st with
    | .error e => .error e
    | .ok k => .ok (pySliceTo sorted k)

/-- `Population.init_genes` (source lines 63-67): mutate the seed gene
`num_organisms` times; the i-th comprehension step is the i-th independent
call of the mutator, always applied to `initial_gene`.  `range` of a
non-positive int is empty. -/
def init_genes {G : Type} (mutateCall : Nat → G → G) (initial_gene : G)
    (n : Int) : List G :=
  (List.range n.toNat).map (fun i => mutateCall i initial_gene)

/-- `Population.__init__` (source lines 34-61): assert
`top_k <= num_organisms` (an `AssertionError` is raised otherwise, before any
strategy call is made), then build the state: `organisms` from `init_genes`,
`best_gene = None`, `best_fitness = -1e99`, and `mutate_probability`
hard-coded to 0.5 (the constructor takes no mutation-probability parameter,
and no other validation of the configuration is performed). -/
def population_init {G : Type} (E : Type) (mutateCall : Nat → G → G)
    (num_organisms : Int) (initial_gene : G) (selection_criteria : String)
    (top_k : Int) : Except (PyErr E) (PopState G) :=
  if top_k ≤ num_organisms then
    .ok { num_organisms := num_organisms
          selection_criteria := selection_criteria
          topk := top_k
          organisms := init_genes mutateCall initial_gene num_organisms
          best_gene := none
          best_fitness := neg1e99
          mutate_probability := 1 / 2 }
  else .error .assertionError

/-- The evaluation comprehension (source lines 76-78): score each organism in
order, pairing it with its fitness; the first strategy error aborts the
comprehension and propagates. -/
def evalAll {G E : Type} (ev : G → Except E ℚ) :
    List G → Except (PyErr E) (List (G × ℚ))
  | [] => .ok []
  | g :: gs =>
    match ev g with
    | .error e => .error (.strategy e)
    | .ok s =>
      match evalAll ev gs with
      | .error e => .error e
      | .ok rest => .ok ((g, s) :: rest)

/-- Fold for Python `max(..., key=lambda x: x[1])`: the running maximum is
replaced only on a strictly greater key, so the first maximum wins ties. -/
def maxBySndGo {G : Type} (best : G × ℚ) : List (G × ℚ) → G × ℚ
  | [] => best
  | y :: ys => maxBySndGo (if y.2 > best.2 then y else best) ys

/-- `max(gene_fitnesses, key=lambda x: x[1])` (source lines 79-81); Python's
`max` raises `ValueError` on an empty sequence. -/
def pyMaxBySnd {G : Type} (E : Type) : List (G × ℚ) → Except (PyErr E) (G × ℚ)
  | [] => .error .valueError
  | x :: xs => .ok (maxBySndGo x xs)

/-- The best-ever update (source lines 82-84): replace the stored pair only
when the generation's maximum fitness strictly exceeds `best_fitness`. -/
def updateBest {G : Type} (st : PopState G) (bg : G) (bf : ℚ) : PopState G :=
  if bf > st.best_fitness then
    { st with best_fitness := bf, best_gene := some bg }
  else st

/-- `Population.run_generations` (source lines 69-100).  Per generation, in
order: evaluate all organisms, update the best-ever pair, then call
`kill_the_weak` — which raises `TypeError` on every call (see
`kill_the_weak`), so the refill loop (source lines 91-98, modelled separately
as `refill`) is unreachable and no generation ever completes; the impossible
success branch is discharged by `noConfusion`.  An exception leaves the
attribute updates already performed on `self` in place, so the model returns
the final state alongside the `Except` outcome.  The generation count is a
`Nat` (Python `range` of a negative int is empty); `tqdm`/`print` are I/O
only and not modelled. -/
def run_generations {G E : Type} (ev : G → Except E ℚ) :
    Nat → PopState G → PopState G × Except (PyErr E) (List G)
  | 0, st => (st, .ok st.organisms)
  | _ + 1, st =>
    match evalAll ev st.organisms with
    | .error e => (st, .error e)
    | .ok gene_fitnesses =>
      match pyMaxBySnd E gene_fitnesses with
      | .error e => (st, .error e)
      | .ok best =>
        match hk : kill_the_weak E (updateBest st best.1 best.2) gene_fitnesses with
        | .error e => (updateBest st best.1 best.2, .error e)
        | .ok _ => Except.noConfusion hk

/-- One refill iteration's random draws (source lines 92-96): `r` models
`random.random()`, `i` the index drawn by `random.choice`, and `j` the index
pair drawn by `random.sample(_, 2)`. -/
structure RandDraw where
  r : ℚ
  i : Nat
  j : Nat × Nat
deriving DecidableEq

/-- `random.choice(xs)` (source line 93): an element of `xs` at the oracle
index reduced mod the length; `IndexError` on an empty sequence. -/
def pyChoice {α : Type} (E : Type) (xs : List α) (i : Nat) :
    Except (PyErr E) α :=
  match xs with
  | [] => .error .indexError
  | x :: rest => .ok ((x :: rest).getD (i % (rest.length + 1)) x)

/-- `random.sample(xs, 2)` (source line 96): two distinct elements of `xs`;
raises `ValueError` when `xs` has fewer than two elements.  The oracle pair is
mapped to a pair of distinct positions of `xs`. -/
def pySample2 {α : Type} (E : Type) (xs : List α) (j : Nat × Nat) :
    Except (PyErr E) (α × α) :=
  match xs with
  | [] => .error .valueError
  | [_] => .error .valueError
  | x :: y :: rest =>
    let l := x :: y :: rest
    let a := j.1 % l.length
    let b0 := j.2 % (l.length - 1)
    let b := if a ≤ b0 then b0 + 1 else b0
    .ok (l.getD a x, l.getD b x)

/-- One iteration of the refill loop body (source lines 92-97), acting on the
current `surviving_genes` list `cur`: if the uniform draw `r` satisfies
`r ≤ mutate_probability`, append the mutation of a `random.choice` element of
`cur`, otherwise append the child bred from a `random.sample` pair of `cur`.
In the source the elements of `surviving_genes` are (gene, fitness) tuples
consumed duck-typed by the strategies, hence the type parameter `α`.  This
loop is unreachable in actual runs (see `run_generations`). -/
def refillStep {α : Type} (E : Type) (p : ℚ) (muta : α → α) (brd : α → α → α)
    (cur : List α) (d : RandDraw) : Except (PyErr E) (List α) :=
  if d.r ≤ p then
    match pyChoice E cur d.i with
    | .error e => .error e
    | .ok x => .ok (cur ++ [muta x])
  else
    match pySample2 E cur d.j with
    | .error e => .error e
    | .ok xy => .ok (cur ++ [brd xy.1 xy.2])

/-- The refill loop (source lines 91-97): one `refillStep` per draw, each step
acting on the list grown by all previous steps (`surviving_genes.append`). -/
def refill {α : Type} (E : Type) (p : ℚ) (muta : α → α) (brd : α → α → α) :
    List RandDraw → List α → Except (PyErr E) (List α)
  | [], cur => .ok cur
  | d :: ds, cur =>
    match refillStep E p muta brd cur d with
    | .error e => .error e
    | .ok next => refill E p muta brd ds next

/-- Stable insertion of `x` into a list already sorted ascending by `key`. -/
def insertByKeyAsc {α : Type} (key : α → ℚ) (x : α) : List α → List α
  | [] => [x]
  | y :: ys => if key x ≤ key y then x :: y :: ys else y :: insertByKeyAsc key x ys

/-- Stable ascending insertion sort by `key`: the order Python's
`sort(key=...)` produces. -/
def sortByKeyAsc {α : Type} (key : α → ℚ) : List α → List α
  | [] => []
  | x :: xs => insertByKeyAsc key x (sortByKeyAsc key xs)

/-- `kill_the_weak` with exactly the two name-level slips repaired — the key
function passed as `key=` and the slice reading the stored attribute `topk` —
isolating the selection policy the source's lines encode: sort ascending by
fitness and keep the FIRST `topk` entries, i.e. the lowest-scoring ones. -/
def kill_the_weak_keyfixed {G : Type} (topk : Int) (genes : List (G × ℚ)) :
    List (G × ℚ) :=
  pySliceTo (sortByKeyAsc (fun x => x.2) genes) topk

/-- Modelled from the spec: the brute-force "K highest-scoring candidates"
selection that the spec checks survivor selection against — sort descending
by score and take `k`. -/
def maxKByScore {G : Type} (k : Nat) (genes : List (G × ℚ)) : List (G × ℚ) :=
  (sortByKeyAsc (fun x => -x.2) genes).take k

/-- Convenience constructor for concrete `PopState`s over `Nat` genes, with
the constructor's sentinel and `selection_criteria` defaults. -/
def mkState (orgs : List Nat) (n k : Int) (p : ℚ) : PopState Nat :=
  { num_organisms := n
    selection_criteria := "topk"
    topk := k
    organisms := orgs
    best_gene := none
    best_fitness := neg1e99
    mutate_probability := p }

/-- The state `population_init` builds from seed 0, N = 3, K = 1 and the
index-10-offset mutator; used by the C9 witness. -/
def c9State : PopState Nat :=
  { num_organisms := 3
    selection_criteria := "topk"
    topk := 1
    organisms := [10, 11, 12]
    best_gene := none
    best_fitness := neg1e99
    mutate_probability := 1 / 2 }

theorem kill_the_weak_eq {G E : Type} (st : PopState G)
    (genes : List (G × ℚ)) : kill_the_weak E st genes = .error .typeError := rfl

theorem run_generations_zero {G E : Type} (ev : G → Except E ℚ)
    (st : PopState G) : run_generations ev 0 st = (st, .ok st.organisms) := rfl

theorem run_generations_succ_eval_error {G E : Type} (ev : G → Except E ℚ)
    (n : Nat) (st : PopState G) (e : PyErr E)
    (h : evalAll ev st.organisms = .error e) :
    run_generations ev (n + 1) st = (st, .error e) := by
  simp only [run_generations, h]

theorem run_generations_succ_empty {G E : Type} (ev : G → Except E ℚ)
    (n : Nat) (st : PopState G) (h : evalAll ev st.organisms = .ok []) :
    run_generations ev (n + 1) st = (st, .error .valueError) := by
  simp only [run_generations, h, pyMaxBySnd]

theorem run_generations_succ_ok {G E : Type} (ev : G → Except E ℚ)
    (n : Nat) (st : PopState G) (y : G × ℚ) (l : List (G × ℚ))
    (h : evalAll ev st.organisms = .ok (y :: l)) :
    run_generations ev (n + 1) st =
      (updateBest st (maxBySndGo y l).1 (maxBySndGo y l).2, .error .typeError) := by
  simp only [run_generations, h, pyMaxBySnd]
  rfl

theorem evalAll_ok_map {G E : Type} (ev : G → Except E ℚ) (f : G → ℚ)
    (xs : List G) (h : ∀ g ∈ xs, ev g = .ok (f g)) :
    evalAll ev xs = .ok (xs.map (fun g => (g, f g))) := by
  induction xs with
  | nil => rfl
  | cons g gs ih =>
    have hg : ev g = .ok (f g) := h g (List.mem_cons_self g gs)
    have ht : evalAll ev gs = .ok (gs.map (fun x => (x, f x))) :=
      ih (fun x hx => h x (List.mem_cons_of_mem g hx))
    simp [evalAll, hg, ht]

theorem evalAll_append_error {G E : Type} (ev : G → Except E ℚ)
    (pre post : List G) (g : G) (e : E)
    (hpre : ∀ x ∈ pre, ∃ q, ev x = .ok q) (hg : ev g = .error e) :
    evalAll ev (pre ++ g :: post) = .error (.strategy e) := by
  induction pre with
  | nil => simp [evalAll, hg]
  | cons x xs ih =>
    obtain ⟨q, hq⟩ := hpre x (List.mem_cons_self x xs)
    have ht := ih (fun y hy => hpre y (List.mem_cons_of_mem x hy))
    simp [evalAll, hq, ht]

theorem run_generations_state_cases {G E : Type} (ev : G → Except E ℚ)
    (n : Nat) (st : PopState G) :
    (run_generations ev n st).1 = st ∨
      ∃ bg bf, st.best_fitness < bf ∧
        (run_generations ev n st).1 =
          { st with best_fitness := bf, best_gene := some bg } := by
  cases n with
  | zero => left; rfl
  | succ n =>
    cases hev : evalAll ev st.organisms with
    | error e => left; rw [run_generations_succ_eval_error ev n st e hev]
    | ok l =>
      cases l with
      | nil => left; rw [run_generations_succ_empty ev n st hev]
      | cons y ys =>
        rw [run_generations_succ_ok ev n st y ys hev]
        by_cases hbf : (maxBySndGo y ys).2 > st.best_fitness
        · right
          exact ⟨(maxBySndGo y ys).1, (maxBySndGo y ys).2, hbf,
            by simp [updateBest, hbf]⟩
        · left; simp [updateBest, hbf]

theorem run_generations_best_fitness_le {G E : Type} (ev : G → Except E ℚ)
    (n : Nat) (st : PopState G) :
    st.best_fitness ≤ (run_generations ev n st).1.best_fitness := by
  rcases run_generations_state_cases ev n st with h | ⟨bg, bf, hlt, heq⟩
  · rw [h]
  · rw [heq]
    exact le_of_lt hlt

/-- C1.  The claim states that survivor selection retains exactly the
`top_k` highest-scoring candidates of a generation, matching a brute-force
max-K computation.  The code is wrong: `kill_the_weak` raises `TypeError` on
every call (the sort key is passed positionally), so no selection ever
happens; moreover, with just the two name slips repaired
(`kill_the_weak_keyfixed`), the method sorts ASCENDING and keeps the FIRST
`topk` pairs, i.e. the LOWEST-scoring candidates, which differs from the
spec's brute-force max-K (`maxKByScore`) already at a two-element input. -/
theorem C1_kill_the_weak_code_bug :
    kill_the_weak Unit (mkState [] 2 1 (1 / 2)) [((0 : Nat), (1 : ℚ)), (1, 2)]
        = .error .typeError
    ∧ kill_the_weak_keyfixed (G := Nat) 1 [(0, 1), (1, 2)] = [(0, 1)]
    ∧ maxKByScore (G := Nat) 1 [(0, 1), (1, 2)] = [(1, 2)]
    ∧ kill_the_weak_keyfixed (G := Nat) 1 [(0, 1), (1, 2)]
        ≠ maxKByScore (G := Nat) 1 [(0, 1), (1, 2)] := by
  refine ⟨rfl, rfl, rfl, ?_⟩
  decide

/-- C2.  The claim states that after every completed generation `organisms`
has exactly N elements.  In the code no generation ever completes: with
N = 2, K = 1 and one generation requested, `run_generations` evaluates the
population, updates the best-ever pair, and then raises `TypeError` inside
`kill_the_weak`, leaving `organisms` untouched (never refilled). -/
theorem C2_no_generation_completes :
    run_generations (fun g : Nat => (.ok (g : ℚ) : Except Unit ℚ)) 1
        (mkState [0, 1] 2 1 (1 / 2))
      = ({ mkState [0, 1] 2 1 (1 / 2) with
            best_gene := some 1, best_fitness := 1 },
          .error .typeError)
    ∧ (run_generations (fun g : Nat => (.ok (g : ℚ) : Except Unit ℚ)) 1
        (mkState [0, 1] 2 1 (1 / 2))).1.organisms = [0, 1] := by
  constructor
  · rfl
  · rfl

/-- C10.  Calling `run_generations` with zero generations is a no-op: it
returns the unchanged state paired with the current `organisms` list, and the
result does not depend on the evaluation strategy (no strategy call occurs;
the mutator and breeder are not even consulted by the generation loop). -/
theorem C10_zero_generations_noop {G E : Type} (ev ev₂ : G → Except E ℚ)
    (st : PopState G) :
    run_generations ev 0 st = (st, .ok st.organisms)
    ∧ run_generations ev 0 st = run_generations ev₂ 0 st :=
  ⟨rfl, rfl⟩

/-- C3.  `best_fitness` is monotonically non-decreasing across a call to
`run_generations`, is changed only by a strict increase (the source guard is
a strict `>` against the stored value), the stored best gene changes only
together with such a strict increase, and monotonicity extends across two
successive calls on the resulting state. -/
theorem C3_best_monotone {G E : Type} (ev ev₂ : G → Except E ℚ)
    (n n₂ : Nat) (st : PopState G) :
    st.best_fitness ≤ (run_generations ev n st).1.best_fitness
    ∧ ((run_generations ev n st).1.best_fitness ≠ st.best_fitness →
        st.best_fitness < (run_generations ev n st).1.best_fitness)
    ∧ ((run_generations ev n st).1.best_gene ≠ st.best_gene →
        st.best_fitness < (run_generations ev n st).1.best_fitness)
    ∧ st.best_fitness ≤
        (run_generations ev₂ n₂ (run_generations ev n st).1).1.best_fitness := by
  refine ⟨run_generations_best_fitness_le ev n st, ?_, ?_, ?_⟩
  · intro hne
    rcases run_generations_state_cases ev n st with h | ⟨bg, bf, hlt, heq⟩
    · rw [h] at hne
      exact absurd rfl hne
    · rw [heq]
      exact hlt
  · intro hne
    rcases run_generations_state_cases ev n st with h | ⟨bg, bf, hlt, heq⟩
    · rw [h] at hne
      exact absurd rfl hne
    · rw [heq]
      exact hlt
  · exact le_trans (run_generations_best_fitness_le ev n st)
      (run_generations_best_fitness_le ev₂ n₂ (run_generations ev n st).1)

/-- Witness for C3 at a concrete population: one organism scoring 1,
one generation, the same evaluator for a successive second call. -/
theorem C3_best_monotone_witness :
    (mkState [3] 1 1 (1 / 2)).best_fitness ≤
      (run_generations (fun _ : Nat => (.ok 1 : Except Unit ℚ)) 1
          (mkState [3] 1 1 (1 / 2))).1.best_fitness :=
  (C3_best_monotone (fun _ : Nat => (.ok 1 : Except Unit ℚ))
    (fun _ => .ok 1) 1 1 (mkState [3] 1 1 (1 / 2))).1

/-- C8.  If an evaluation strategy call raises during `run_generations`
(the first failing organism sits after a prefix of successfully evaluated
ones), the error propagates unchanged to the caller wrapped in the strategy
constructor, the remaining work of this and all later generations is aborted,
and the whole state — in particular `best_gene`/`best_fitness` from the
generations completed before the failure — is left exactly as it was.
(The mutation and breeding strategies are never invoked by
`run_generations` at all: the refill loop is unreachable, see
`run_generations`, so an evaluation failure is the only reachable strategy
failure.) -/
theorem C8_strategy_error_propagates {G E : Type} (ev : G → Except E ℚ)
    (n : Nat) (st : PopState G) (pre post : List G) (g : G) (e : E)
    (horg : st.organisms = pre ++ g :: post)
    (hpre : ∀ x ∈ pre, ∃ q, ev x = .ok q)
    (hg : ev g = .error e) :
    run_generations ev (n + 1) st = (st, .error (.strategy e)) := by
  have hev : evalAll ev st.organisms = .error (.strategy e) := by
    rw [horg]
    exact evalAll_append_error ev pre post g e hpre hg
  exact run_generations_succ_eval_error ev n st _ hev

/-- Witness for C8: organisms `[0, 1, 2]`, the evaluator succeeds on 0 and
raises error 42 on 1; the run aborts with that error and the state is
unchanged. -/
theorem C8_strategy_error_propagates_witness :
    run_generations (fun g : Nat => if g = 1 then (.error 42 : Except Nat ℚ) else .ok 0)
        1 (mkState [0, 1, 2] 3 1 (1 / 2))
      = (mkState [0, 1, 2] 3 1 (1 / 2), .error (.strategy 42)) :=
  C8_strategy_error_propagates
    (fun g : Nat => if g = 1 then (.error 42 : Except Nat ℚ) else .ok 0) 0
    (mkState [0, 1, 2] 3 1 (1 / 2)) [0] [2] 1 42 rfl
    (by
      intro x hx
      have hx0 : x = 0 := by simpa using hx
      subst hx0
      exact ⟨0, rfl⟩)
    rfl

/-- C9.  When construction succeeds, `init_genes` has replaced `organisms`
by exactly `num_organisms` candidates (for the claim's positive N,
`n.toNat = N`), the i-th being the result of the i-th independent mutator
call applied directly to the seed gene — no initial candidate is derived
from another initial candidate. -/
theorem C9_init_genes_from_seed {G : Type} (m : Nat → G → G) (n k : Int)
    (seed : G) (s : String) (st : PopState G)
    (h : population_init Unit m n seed s k = .ok st) :
    st.organisms.length = n.toNat
    ∧ st.organisms = (List.range n.toNat).map (fun i => m i seed) := by
  by_cases hkn : k ≤ n
  · simp only [population_init, if_pos hkn, Except.ok.injEq] at h
    subst h
    constructor
    · simp [init_genes]
    · rfl
  · simp [population_init, if_neg hkn] at h

/-- Witness for C9: seed 0, N = 3, K = 1, and the mutator that returns
`i + 10` on its i-th call yields organisms `[10, 11, 12]`. -/
theorem C9_init_genes_from_seed_witness :
    population_init Unit (fun i _ => i + 10) 3 0 "topk" 1 = .ok c9State
    ∧ c9State.organisms.length = (3 : Int).toNat :=
  ⟨rfl, (C9_init_genes_from_seed (fun i _ => i + 10) 3 1 0 "topk" c9State rfl).1⟩

/-- C6, counterexample.  The claim states construction fails fast for every
invalid configuration, including K < 1 and N ≤ 0.  It does not: with
N = 0 (violating N > 0) and K = 0 (violating K ≥ 1) the constructor's only
check `top_k <= num_organisms` passes and construction succeeds.  (A
mutation probability is not even accepted at construction: the attribute is
hard-coded to 0.5, see `population_init`.) -/
theorem C6_counterexample :
    population_init Unit (fun _ g => g) 0 (0 : Nat) "topk" 0
      = .ok { num_organisms := 0
              selection_criteria := "topk"
              topk := 0
              organisms := []
              best_gene := none
              best_fitness := neg1e99
              mutate_probability := 1 / 2 } := rfl

/-- C6, amended.  Construction fails fast exactly when `top_k` exceeds
`num_organisms`, raising `AssertionError` (the assert precedes every strategy
call), and that outcome is independent of the supplied mutator — no strategy
method is invoked on the failing path.  No other configuration validation
exists. -/
theorem C6_amended_assert_only {G : Type} (m₁ m₂ : Nat → G → G) (n k : Int)
    (seed : G) (s : String) (h : n < k) :
    population_init Unit m₁ n seed s k = .error .assertionError
    ∧ population_init Unit m₁ n seed s k = population_init Unit m₂ n seed s k := by
  have hnk : ¬(k ≤ n) := not_le.mpr h
  constructor
  · simp [population_init, if_neg hnk]
  · simp [population_init, if_neg hnk]

/-- Witness for C6 (amended) at the spec's scenario K = 5, N = 3. -/
theorem C6_amended_assert_only_witness :
    population_init Unit (fun _ g => g) 3 (0 : Nat) "topk" 5
        = .error .assertionError
    ∧ population_init Unit (fun _ g => g) 3 (0 : Nat) "topk" 5
        = population_init Unit (fun i _ => i) 3 (0 : Nat) "topk" 5 :=
  C6_amended_assert_only (fun _ g => g) (fun i _ => i) 3 5 0 "topk" (by decide)

/-- C5, counterexample.  The claim states that with K = 1 and mutation
probability 0 a breeding attempt raises a distinct
`InsufficientSurvivorsError` (or one documented fallback) and never crashes
with an unrelated error.  No such error class exists anywhere in the code
(`PyErr` faithfully has no such constructor), and the concrete run below —
one organism, K = 1, mutation probability 0 — crashes with the unrelated
`TypeError` raised by the sort call in `kill_the_weak`, before any breeding
is ever attempted. -/
theorem C5_counterexample :
    run_generations (fun _ : Nat => (.ok 1 : Except Unit ℚ)) 1
        (mkState [7] 2 1 0)
      = ({ mkState [7] 2 1 0 with best_gene := some 7, best_fitness := 1 },
          .error .typeError) := rfl

/-- C5, amended.  With K = 1 and mutation probability 0 the failure is
deterministic but unrelated to breeding: whenever the organisms list is
nonempty and all evaluations succeed, `run_generations` raises `TypeError`
from the survivor-selection sort before any breeding attempt; and had
selection succeeded, the breeding branch itself (`random.sample` on a
single-element survivor list, taken whenever the uniform draw exceeds the
mutation probability) would raise a plain `ValueError`. -/
theorem C5_amended_unrelated_error {G E α : Type} (ev : G → Except E ℚ)
    (f : G → ℚ) (n : Nat) (st : PopState G)
    (muta : α → α) (brd : α → α → α) (x : α) (d : RandDraw)
    (hk : st.topk = 1) (hp : st.mutate_probability = 0)
    (hne : st.organisms ≠ [])
    (hev : ∀ g ∈ st.organisms, ev g = .ok (f g))
    (hd : st.mutate_probability < d.r) :
    (run_generations ev (n + 1) st).2 = .error .typeError
    ∧ refillStep Unit st.mutate_probability muta brd [x] d = .error .valueError := by
  constructor
  · cases horg : st.organisms with
    | nil => exact absurd horg hne
    | cons y ys =>
      have hev2 : evalAll ev st.organisms
          = .ok ((y, f y) :: ys.map (fun g => (g, f g))) := by
        rw [horg]
        have h0 := evalAll_ok_map ev f (y :: ys)
          (by rw [horg] at hev; exact hev)
        simpa using h0
      rw [run_generations_succ_ok ev n st (y, f y) (ys.map fun g => (g, f g)) hev2]
  · have hnr : ¬(d.r ≤ st.mutate_probability) := not_le.mpr hd
    simp [refillStep, if_neg hnr, pySample2]

/-- Witness for C5 (amended): one organism `[7]`, K = 1, mutation
probability 0, evaluator constantly 1, draw r = 1/2. -/
theorem C5_amended_unrelated_error_witness :
    (run_generations (fun _ : Nat => (.ok 1 : Except Unit ℚ)) 1
        (mkState [7] 2 1 0)).2 = .error .typeError
    ∧ refillStep Unit (mkState [7] 2 1 0).mutate_probability
        (fun v : Nat => v + 1) (fun a b => a + b) [5] ⟨1 / 2, 0, (0, 0)⟩
      = .error .valueError :=
  C5_amended_unrelated_error (fun _ : Nat => (.ok 1 : Except Unit ℚ))
    (fun _ => 1) 0 (mkState [7] 2 1 0)
    (fun v : Nat => v + 1) (fun a b => a + b) 5 ⟨1 / 2, 0, (0, 0)⟩
    rfl rfl (by decide) (by intro g hg; rfl) (by norm_num [mkState])

/-- C4, counterexample.  The claim states that with mutation probability 0
every refill step takes the breeding branch for EVERY random outcome.  The
refill body (source line 92) tests `random.random() <= mutate_probability`,
and `random.random()` attains 0.0, so the outcome r = 0 satisfies `0 ≤ 0`
and takes the MUTATE branch: the appended element below is the mutation
marker 777, not the breeding marker 888. -/
theorem C4_counterexample :
    refillStep Unit 0 (fun _ : Nat => 777) (fun _ _ => 888) [10, 20]
        ⟨0, 0, (0, 0)⟩
      = .ok [10, 20, 777] := rfl

/-- C4, amended.  With mutation probability 0, every refill step whose
uniform draw is strictly positive takes the breeding branch and never calls
the mutator (the result does not depend on the supplied mutator); with
mutation probability 1, every step whose draw lies in the unit interval
takes the mutate branch, so no breeding call ever occurs (the result does
not depend on the supplied breeder).  In the shipped code this loop is
additionally unreachable: `kill_the_weak` raises `TypeError` first (see
`run_generations`). -/
theorem C4_amended_branching {α : Type} (m₁ m₂ : α → α)
    (b₀ b₁ b₂ : α → α → α) (cur : List α) (d : RandDraw) :
    (0 < d.r → refillStep Unit 0 m₁ b₀ cur d = refillStep Unit 0 m₂ b₀ cur d)
    ∧ (d.r ≤ 1 → refillStep Unit 1 m₁ b₁ cur d = refillStep Unit 1 m₁ b₂ cur d) := by
  constructor
  · intro h
    have hnr : ¬(d.r ≤ 0) := not_le.mpr h
    simp [refillStep, if_neg hnr]
  · intro h
    simp [refillStep, if_pos h]

/-- Witness for C4 (amended) at draw r = 1/2 over survivors `[1, 2]`. -/
theorem C4_amended_branching_witness :
    (refillStep Unit 0 (fun v : Nat => v + 1) (fun a b => a + b) [1, 2]
        ⟨1 / 2, 0, (0, 0)⟩
      = refillStep Unit 0 (fun v : Nat => v + 2) (fun a b => a + b) [1, 2]
        ⟨1 / 2, 0, (0, 0)⟩)
    ∧ (refillStep Unit 1 (fun v : Nat => v + 1) (fun a b => a + b) [1, 2]
        ⟨1 / 2, 0, (0, 0)⟩
      = refillStep Unit 1 (fun v : Nat => v + 1) (fun a b => a * b) [1, 2]
        ⟨1 / 2, 0, (0, 0)⟩) := by
  have h := C4_amended_branching (fun v : Nat => v + 1) (fun v => v + 2)
    (fun a b => a + b) (fun a b => a + b) (fun a b => a * b) [1, 2]
    ⟨1 / 2, 0, (0, 0)⟩
  exact ⟨h.1 (by norm_num), h.2 (by norm_num)⟩

/-- C7, counterexample.  The claim states that refill sources and breeding
parents are always drawn from the `topk` survivors selected that generation
and that offspring appended earlier in the same refill loop are never
chosen.  The loop as written draws from the GROWING `surviving_genes` list:
with the single survivor `[5]` and two always-mutate steps, the second step
picks index 1 — the offspring 6 appended by the first step — and yields 7,
which is not the mutation of any original survivor; and with survivors
`[5, 9]` and mutation probability 0, a breeding step (draw r = 1) after one
boundary mutation step (draw r = 0) samples index 2, i.e. the fresh
offspring 6, as a parent (child 100 * 6 + 5 = 605). -/
theorem C7_counterexample :
    refill Unit 1 (fun v : Nat => v + 1) (fun a b => 100 * a + b)
        [⟨0, 0, (0, 0)⟩, ⟨0, 1, (0, 0)⟩] [5] = .ok [5, 6, 7]
    ∧ (¬ ∃ x ∈ [(5 : Nat)], x + 1 = 7)
    ∧ refill Unit 0 (fun v : Nat => v + 1) (fun a b => 100 * a + b)
        [⟨0, 0, (0, 0)⟩, ⟨1, 0, (2, 0)⟩] [5, 9] = .ok [5, 9, 6, 605] := by
  refine ⟨rfl, by decide, rfl⟩

/-- C7, amended.  Each refill step draws its mutation source (and likewise
its breeding parents) from the current `surviving_genes` list — the original
survivors together with every offspring appended by earlier steps of the
same loop — not from the original survivors only: whenever the step
mutates, the appended element is the mutation of SOME member of the current
list.  In the shipped code the loop is additionally unreachable
(`kill_the_weak` raises `TypeError` first, see `run_generations`). -/
theorem C7_amended_draws_from_growing {α : Type} (p : ℚ) (muta : α → α)
    (brd : α → α → α) (cur : List α) (d : RandDraw)
    (hne : cur ≠ []) (hr : d.r ≤ p) :
    ∃ x ∈ cur, refillStep Unit p muta brd cur d = .ok (cur ++ [muta x]) := by
  cases cur with
  | nil => exact absurd rfl hne
  | cons y ys =>
    refine ⟨(y :: ys).getD (d.i % (ys.length + 1)) y, ?_, ?_⟩
    · have hlt : d.i % (ys.length + 1) < (y :: ys).length :=
        Nat.mod_lt _ (Nat.succ_pos _)
      rw [List.getD_eq_getElem _ _ hlt]
      exact List.getElem_mem hlt
    · simp [refillStep, if_pos hr, pyChoice]

/-- Witness for C7 (amended): survivor list `[4]`, mutation probability 1,
draw r = 0. -/
theorem C7_amended_draws_from_growing_witness :
    ∃ x ∈ [(4 : Nat)],
      refillStep Unit 1 (fun v : Nat => v + 1) (fun a b => a + b) [4]
        ⟨0, 0, (0, 0)⟩ = .ok ([4] ++ [x + 1]) :=
  C7_amended_draws_from_growing 1 (fun v : Nat => v + 1) (fun a b => a + b)
    [4] ⟨0, 0, (0, 0)⟩ (by decide) (by norm_num)
